import Mathlib

/-!
Verification development for the shakenfist control plane sources:
src/shakenfist/images.py, src/shakenfist/daemons/main.py and
src/shakenfist/external_api/app.py.

The Python code is shallowly embedded: side effects (filesystem writes,
etcd writes, lock refreshes, forked children) become explicit state or
observation traces, external collaborators (hashlib, name resolvers,
qemu-img, the HTTP client, the scheduler) become function parameters,
and Python falsiness and dict semantics are modelled explicitly.
-/

set_option maxRecDepth 8000

namespace SF

/-- Python falsiness for an optional string argument: None and the empty
string are both falsy, matching the if-not checks in the sources. -/
def pyFalsy : Option String → Bool
  | none => true
  | some s => s == ""

/-- Python list.append: mutates the list in place and evaluates to None.
The first component is the value of the expression (always none), the
second is the mutated list. -/
def pyListAppend (xs : List α) (x : α) : Option (List α) × List α :=
  (none, xs ++ [x])

/-- Python str.startswith. -/
def pyStartsWith (s p : String) : Bool := p.toList.isPrefixOf s.toList

/-- Python str.endswith. -/
def pyEndsWith (s p : String) : Bool := p.toList.isSuffixOf s.toList

namespace Images

/-- The .info metadata record written next to a cached image, from
_read_info and fetch in images.py. The two validated header fields are
optional because a freshly constructed info dict does not contain them. -/
structure ImageInfo where
  url : String
  hash : String
  version : Nat
  lastModified : Option String := none
  contentLength : Option String := none
deriving DecidableEq

/-- Python dict get on an info record for the validated header fields:
absent keys give None. -/
def infoGet (i : ImageInfo) : String → Option String
  | "Last-Modified" => i.lastModified
  | "Content-Length" => i.contentLength
  | _ => none

/-- One body chunk of a streaming HTTP response, with the wall-clock
time at which iter_content yields it. -/
structure Chunk where
  size : Nat
  time : Nat
deriving DecidableEq

/-- A streaming HTTP response as used by requires_fetch and fetch. -/
structure HttpResp where
  status : Nat
  lastModified : Option String := none
  contentLength : Option String := none
  chunks : List Chunk := []
deriving DecidableEq

/-- Python resp.headers.get for the two validated fields. -/
def respHeader (r : HttpResp) : String → Option String
  | "Last-Modified" => r.lastModified
  | "Content-Length" => r.contentLength
  | _ => none

/-- resolve from images.py: the resolvers dict iterates cirros then
ubuntu; a name starting with a resolver key is resolved by that module,
anything else is returned verbatim. The two resolver modules are out of
scope external collaborators, passed in as functions. -/
def resolve (cirros ubuntu : String → String) (name : String) : String :=
  if pyStartsWith name "cirros" then cirros name
  else if pyStartsWith name "ubuntu" then ubuntu name
  else name

/-- _get_cache_path from images.py, dropping the mkdir side effect. -/
def _get_cache_path (storagePath : String) : String :=
  storagePath ++ "/image_cache"

/-- hash_image from images.py. The SHA-256 hex digest is an external
hashlib call, passed in as the function h; the claims only concern
which string is hashed. Returns (hashed_image_url, hashed_image_path). -/
def hash_image (h : String → String) (storagePath : String) (image_url : String) :
    String × String :=
  let hashed_image_url := h image_url
  (hashed_image_url, _get_cache_path storagePath ++ "/" ++ hashed_image_url)

/-- _get_image_lock_name from images.py. -/
def _get_image_lock_name (nodeName hashed_image_url : String) : String :=
  "sf/images/" ++ nodeName ++ "/" ++ hashed_image_url

/-- VALIDATED_IMAGE_FIELDS from images.py. -/
def VALIDATED_IMAGE_FIELDS : List String := ["Last-Modified", "Content-Length"]

/-- _read_info from images.py: when no .info file exists, a fresh info
dict with version 0 and no validated header fields. -/
def _read_info (fsInfo : String → Option ImageInfo)
    (image_url hashed_image_url hashed_image_path : String) : ImageInfo :=
  match fsInfo (hashed_image_path ++ ".info") with
  | none => { url := image_url, hash := hashed_image_url, version := 0 }
  | some info => info

/-- requires_fetch from images.py: read the stored info, issue the
streaming GET (the HTTP client is the external parameter httpGet),
raise on a non-200 status, and compare each validated field of the
stored info against the response header. -/
def requires_fetch (h : String → String) (storagePath : String)
    (fsInfo : String → Option ImageInfo) (httpGet : String → HttpResp)
    (image_url : String) : Except String (ImageInfo × Bool × HttpResp) :=
  let hp := hash_image h storagePath image_url
  let info := _read_info fsInfo image_url hp.1 hp.2
  let resp := httpGet image_url
  if resp.status ≠ 200 then
    .error ("Failed to fetch HEAD of " ++ image_url)
  else
    let image_dirty := VALIDATED_IMAGE_FIELDS.foldl
      (fun d field => if infoGet info field ≠ respHeader resp field then true else d)
      false
    .ok (info, image_dirty, resp)

/-- bump_locks from fetch in images.py: if locks is falsy (None or the
empty list) nothing is refreshed; otherwise each non-None lock in the
list is refreshed. Returns the list of locks actually refreshed. -/
def bump_locks (locks : Option (List (Option String))) : List String :=
  match locks with
  | none => []
  | some ls => if ls.isEmpty then [] else ls.filterMap id

/-- Zero padded version suffix, the Python percent-03d format. -/
def pad3 (n : Nat) : String :=
  if n < 10 then "00" ++ toString n
  else if n < 100 then "0" ++ toString n
  else toString n

/-- The versioned payload path format string of images.py. -/
def fmtV (p : String) (v : Nat) : String := p ++ ".v" ++ pad3 v

/-- Observable outcome of fetch: the returned path, the updated info,
the concatenated log of every lock refresh performed during the
transfer and the gunzip step, and the .info path written (if any). -/
structure FetchOut where
  path : String
  info : ImageInfo
  refreshed : List String
  wroteInfoAt : Option String
deriving DecidableEq

/-- fetch from images.py: bump the version, update the validated fields
from the response headers, stream the chunks (refreshing the held locks
whenever more than 10 seconds have passed since the last refresh),
write the .info when any bytes arrived, and decompress when the source
url ends in .gz. -/
def fetch (fsExists : String → Bool) (hashed_image_path : String)
    (info0 : ImageInfo) (resp : HttpResp)
    (locks : Option (List (Option String))) : FetchOut :=
  let info := { info0 with
    version := info0.version + 1,
    lastModified := resp.lastModified,
    contentLength := resp.contentLength }
  let res := resp.chunks.foldl
    (fun (acc : Nat × Nat × List String) chunk =>
      if chunk.time - acc.2.1 > 10 then
        (acc.1 + chunk.size, chunk.time, acc.2.2 ++ bump_locks locks)
      else
        (acc.1 + chunk.size, acc.2.1, acc.2.2))
    (0, 0, [])
  let fetched := res.1
  let log := res.2.2
  let wrote := if fetched > 0 then some (hashed_image_path ++ ".info") else none
  if pyEndsWith info.url ".gz" then
    let vpath := fmtV hashed_image_path info.version
    let log2 := if fsExists (vpath ++ ".orig") then log else log ++ bump_locks locks
    { path := vpath ++ ".orig", info := info, refreshed := log2, wroteInfoAt := wrote }
  else
    { path := fmtV hashed_image_path info.version, info := info,
      refreshed := log, wroteInfoAt := wrote }

/-- Observable outcome of get_image: the returned path plus a trace of
the key derivations and lock activity the call performed. The trace
records the hash used to build the image lock name, the hash and path
under which requires_fetch read the .info, the locks argument that was
passed to fetch, and every lock refresh performed. -/
structure GetImageOut where
  path : String
  lockName : String
  hashedForLock : String
  infoReadHash : String
  infoReadPath : String
  fetchLocksArg : Option (List (Option String))
  refreshed : List String
deriving DecidableEq

/-- get_image from images.py. Note two source facts embedded here
faithfully: hash_image is applied to the raw url before resolution, so
the lock name and payload path derive from the unresolved url while
requires_fetch hashes the resolved url, and the locks argument handed
to fetch is the value of the Python expression locks.append(image_lock),
which is None. -/
def get_image (h : String → String) (cirros ubuntu : String → String)
    (nodeName storagePath : String)
    (fsInfo : String → Option ImageInfo) (fsExists : String → Bool)
    (httpGet : String → HttpResp)
    (url : String) (locks : List (Option String)) : Except String GetImageOut :=
  let hp := hash_image h storagePath url
  let image_lock := _get_image_lock_name nodeName hp.1
  let image_url := resolve cirros ubuntu url
  match requires_fetch h storagePath fsInfo httpGet image_url with
  | .error e => .error e
  | .ok (info, image_dirty, resp) =>
    if image_dirty then
      let appended := pyListAppend locks (some image_lock)
      let fr := fetch fsExists hp.2 info resp appended.1
      .ok { path := fr.path, lockName := image_lock, hashedForLock := hp.1,
            infoReadHash := h image_url,
            infoReadPath := (hash_image h storagePath image_url).2 ++ ".info",
            fetchLocksArg := appended.1, refreshed := fr.refreshed }
    else
      .ok { path := fmtV hp.2 info.version, lockName := image_lock,
            hashedForLock := hp.1, infoReadHash := h image_url,
            infoReadPath := (hash_image h storagePath image_url).2 ++ ".info",
            fetchLocksArg := none, refreshed := [] }

/-- A node-local filesystem for resize: a map from path to an abstract
file content identifier. Lookup returns the first matching entry. -/
def fsGet : List (String × Nat) → String → Option Nat
  | [], _ => none
  | (q, v) :: t, p => if q = p then some v else fsGet t p

/-- Creating or overwriting a file. -/
def fsInsert (fs : List (String × Nat)) (p : String) (v : Nat) : List (String × Nat) :=
  (p, v) :: fs

/-- The backing file path built by resize in images.py. -/
def backing_file_path (hashed_image_path : String) (size : Nat) : String :=
  hashed_image_path ++ ".qcow2" ++ "." ++ toString size ++ "G"

/-- resize from images.py. The qemu-img info virtual size of a file is
the external parameter vsize (identify returns an empty dict, hence
none, for a missing path); the in-place qemu-img resize effect on the
copied content is the external parameter rtool. Fallible filesystem
calls (os.link, shutil.copyfile on a missing source) return an error. -/
def resize (vsize : Nat → Option Nat) (rtool : Nat → Nat → Nat)
    (fs : List (String × Nat)) (hashed_image_path : String) (size : Nat) :
    Except String (List (String × Nat) × String) :=
  let backing_file := backing_file_path hashed_image_path size
  if (fsGet fs backing_file).isSome then
    .ok (fs, backing_file)
  else
    let current_size := match fsGet fs hashed_image_path with
      | none => none
      | some f => vsize f
    if current_size = some (size * 1024 * 1024 * 1024) then
      match fsGet fs hashed_image_path with
      | some f => .ok (fsInsert fs backing_file f, backing_file)
      | none => .error "os.link: source missing"
    else
      match fsGet fs (hashed_image_path ++ ".qcow2") with
      | none => .error "shutil.copyfile: source missing"
      | some src =>
        let fs1 := fsInsert fs backing_file src
        let fs2 := fsInsert fs1 backing_file (rtool src size)
        .ok (fs2, backing_file)

end Images

namespace Daemons

/-- A Python dict key: the DAEMONS table is keyed by role name strings,
while the monitor loop looks it up with an integer pid. -/
inductive PyKey where
  | s : String → PyKey
  | i : Nat → PyKey
deriving DecidableEq

/-- A Python dict value for DAEMONS: pids are ints; the lookup default
is the string unknown. -/
inductive PyVal where
  | vi : Nat → PyVal
  | vs : String → PyVal
deriving DecidableEq

/-- Python dict get with a default. -/
def dict_get : List (PyKey × PyVal) → PyKey → PyVal → PyVal
  | [], _, dflt => dflt
  | (k0, v) :: t, k, dflt => if k0 = k then v else dict_get t k dflt

/-- Reuse of a dict value as a dict key, as _start_daemon(d) would do
with the looked-up value. -/
def keyOfVal : PyVal → PyKey
  | .vi n => .i n
  | .vs s => .s s

/-- The DAEMONS table as built by main in daemons/main.py: the
resources child is forked first, then api, cleaner, net, queues and
triggers, each recorded under its role name string. -/
def main_daemons (pr pa pc pn pq pt : Nat) : List (PyKey × PyVal) :=
  [(.s "resources", .vi pr), (.s "api", .vi pa), (.s "cleaner", .vi pc),
   (.s "net", .vi pn), (.s "queues", .vi pq), (.s "triggers", .vi pt)]

/-- One iteration of the monitor loop in main: waitpid produced wpid
(zero when no child exited); the source then evaluates
DAEMONS.get(wpid, unknown) and re-forks only when the result is not the
string unknown. The second component records the re-forked role value,
none when no fork happened. -/
def monitor_tick (daemons : List (PyKey × PyVal)) (wpid : Nat) (freshPid : Nat) :
    List (PyKey × PyVal) × Option PyVal :=
  if wpid ≠ 0 then
    let d := dict_get daemons (.i wpid) (.vs "unknown")
    if d ≠ .vs "unknown" then ((keyOfVal d, .vi freshPid) :: daemons, some d)
    else (daemons, none)
  else (daemons, none)

/-- One instance as seen by the restore loop: whether virt.from_db
found it, and its recorded power state (defaulted to unknown). -/
structure RInst where
  uuid : String
  found : Bool
  power_state : String
deriving DecidableEq

/-- The names defined at module level in daemons/main.py: the imported
modules and the module level assignments and defs. -/
def main_module_names : List String :=
  ["setproctitle", "time", "os", "processutils", "config", "daemon",
   "external_api_daemon", "cleaner_daemon", "queues_daemon", "net_daemon",
   "resource_daemon", "trigger_daemon", "db", "net", "util", "virt",
   "LOG", "handler", "restore_instances", "DAEMON_IMPLEMENTATIONS",
   "DAEMONS", "main"]

/-- The local names bound inside restore_instances in daemons/main.py. -/
def restore_instances_local_names : List String :=
  ["networks", "instances", "inst", "iface", "network", "n", "e",
   "instance", "i", "_"]

/-- The names resolvable from inside restore_instances. The Python
builtins define none of the project specific names used here. -/
def restore_scope : List String :=
  main_module_names ++ restore_instances_local_names

/-- Evaluation of a bare Python name: a name outside the scope raises
NameError. -/
def resolve_name (scope : List String) (n : String) : Except String Unit :=
  if n ∈ scope then .ok ()
  else .error ("NameError: name " ++ n ++ " is not defined")

/-- The per-instance restore loop of restore_instances in
daemons/main.py: skip instances virt.from_db does not find and those
whose power state is not in the boot list; attempt create; on a create
exception, ignore_exception logs and then db.enqueue_delete(node, ...)
is evaluated, which resolves the bare name node. An uncaught exception
propagates out of the whole loop. Returns the restored uuids. -/
def restore_loop (createRaises : String → Bool) :
    List RInst → List String → Except String (List String)
  | [], restored => .ok restored.reverse
  | r :: rest, restored =>
    if r.found = false then restore_loop createRaises rest restored
    else if (["on", "transition-to-on", "initial", "unknown"].contains r.power_state) = false then
      restore_loop createRaises rest restored
    else if createRaises r.uuid then
      match resolve_name restore_scope "node" with
      | .error e => .error e
      | .ok _ => restore_loop createRaises rest restored
    else restore_loop createRaises rest (r.uuid :: restored)

/-- The restore instances phase of restore_instances (the network
restore phase that precedes it catches all of its own exceptions and is
not modelled). -/
def restore_instances (createRaises : String → Bool) (insts : List RInst) :
    Except String (List String) :=
  restore_loop createRaises insts []

end Daemons

namespace API

/-- A flask API response. The source wraps the message into a JSON body
with error and status fields; the body here carries the message (or a
placeholder for a success payload). -/
structure Response where
  status : Nat
  body : String
deriving DecidableEq

/-- The error helper of external_api/app.py (traceback handling is
logging only and not modelled). -/
def error (status : Nat) (message : String) : Response :=
  { status := status, body := message }

/-- A JSON object body with string values, enough for the bodies the
proxy handlers reserialize. -/
structure JsonDict where
  pairs : List (String × String)
deriving DecidableEq

/-- Python json.dumps on such an object. -/
def dumps (d : JsonDict) : String :=
  "\x7b" ++ String.intercalate ", "
    (d.pairs.map (fun kv => "\"" ++ kv.1 ++ "\": \"" ++ kv.2 ++ "\"")) ++ "\x7d"

/-- An incoming flask request as the proxy decorators see it: the raw
body, the result of attempting to parse it as JSON, and the
Authorization header. -/
structure HttpReq where
  method : String
  pathInfo : String
  rawBody : String
  parsedBody : Option JsonDict
  authorization : Option String
deriving DecidableEq

/-- flask_get_post_body from app.py: the parsed JSON body, or an empty
dict when the body cannot be parsed. -/
def flask_get_post_body (parsedBody : Option JsonDict) : JsonDict :=
  parsedBody.getD { pairs := [] }

/-- The response of the remote node to a proxied request. -/
structure RemoteResp where
  status : Nat
  text : String
  contentType : String
deriving DecidableEq

/-- The outbound request built by a proxy handler. -/
structure ProxiedRequest where
  method : String
  url : String
  data : String
  authHeader : Option String
deriving DecidableEq

/-- redirect_instance_request from app.py, on a request whose instance
record was found (the decorator below arg_is_instance_uuid_as_virt):
when the instance node differs from this node, proxy the request and
forward the remote status and text with a hardcoded application/json
mimetype; otherwise fall through to the wrapped method (none). The
remote side is the external parameter remote. -/
def redirect_instance_request (nodeName : String) (apiPort : Nat)
    (instNode : String) (req : HttpReq)
    (remote : ProxiedRequest → RemoteResp) :
    Option (ProxiedRequest × Response × String) :=
  if instNode ≠ nodeName then
    let preq : ProxiedRequest :=
      { method := req.method,
        url := "http://" ++ instNode ++ ":" ++ toString apiPort ++ req.pathInfo,
        data := dumps (flask_get_post_body req.parsedBody),
        authHeader := req.authorization }
    let r := remote preq
    some (preq, { status := r.status, body := r.text }, "application/json")
  else none

/-- The result of the Auth.post handler. -/
inductive AuthResult where
  | err : Nat → String → AuthResult
  | token : String → AuthResult
deriving DecidableEq

/-- The password store: a namespace maps to nothing (no record), or to
a record whose passwords key may itself be absent. -/
abbrev PasswordStore := String → Option (Option (List String))

/-- Auth._get_password from app.py: no record, a falsy record, or a
record without a passwords key all give the empty list. -/
def _get_password (store : PasswordStore) (nspace : String) : List String :=
  match store nspace with
  | none => []
  | some rec => rec.getD []

/-- Auth.post from app.py. Token minting by flask_jwt_extended is
external; the result records the identity the token would carry. -/
def auth_post (store : PasswordStore) (nspace password : Option String) :
    AuthResult :=
  if pyFalsy nspace then .err 400 "Missing namespace in request"
  else if pyFalsy password then .err 400 "Missing password in request"
  else
    let ns := nspace.getD ""
    let pw := password.getD ""
    if (( _get_password store ns).contains pw) = false then .err 401 "Unauthorized"
    else .token ns

/-- A requested network description from the POST /instances body.
The source mutates the dict (filling address and model); the record is
updated the same way. -/
structure NetDesc where
  network_uuid : Option String := none
  address : Option String := none
  model : Option String := none
deriving DecidableEq

/-- A NetworkInterface record as created by db.create_network_interface. -/
structure IfaceRec where
  uuid : String
  netdesc : NetDesc
  instance_uuid : String
  order : Nat
  state : String
deriving DecidableEq

/-- The slice of etcd state that Instances.post reads and writes: the
per-network IPManager in_use lists, the interface records, the state of
the instance being created, and its placement. -/
structure DBState where
  ipmanagers : List (String × List String)
  interfaces : List IfaceRec
  instanceState : Option String
  placedNode : Option String
deriving DecidableEq

/-- Modelled from the spec: the IPManager module is not under src/.
Per the spec an IPManager holds an in_use set of addresses; reserve
fails exactly when the address is already in use, release removes it,
and get_random_free_address allocates a free address. -/
def ipm_reserve (ipm : List String) (addr : String) : Bool × List String :=
  if ipm.contains addr then (false, ipm) else (true, addr :: ipm)

/-- Modelled from the spec: IPManager release. -/
def ipm_release (ipm : List String) (addr : String) : List String :=
  ipm.erase addr

/-- db.get_ipmanager for a network uuid. -/
def ipmLookup (db : DBState) (nu : String) : List String :=
  match db.ipmanagers.find? (fun kv => kv.1 == nu) with
  | some kv => kv.2
  | none => []

/-- db.persist_ipmanager for a network uuid. -/
def ipmSet (db : DBState) (nu : String) (ipm : List String) : DBState :=
  { db with ipmanagers :=
      if (db.ipmanagers.find? (fun kv => kv.1 == nu)).isSome then
        db.ipmanagers.map (fun kv => if kv.1 == nu then (kv.1, ipm) else kv)
      else db.ipmanagers ++ [(nu, ipm)] }

/-- Tracked allocations of the request, keyed by network uuid, in dict
insertion order: the rollback table of Instances.post. -/
abbrev Allocations := List (String × List (String × Nat))

/-- allocations.setdefault(network_uuid, []). -/
def allocSetdefault (allocs : Allocations) (nu : String) : Allocations :=
  if (allocs.find? (fun kv => kv.1 == nu)).isSome then allocs
  else allocs ++ [(nu, [])]

/-- allocations(network_uuid).append((address, order)). -/
def allocAppend (allocs : Allocations) (nu : String) (pair : String × Nat) :
    Allocations :=
  allocs.map (fun kv => if kv.1 == nu then (kv.1, kv.2 ++ [pair]) else kv)

/-- The state mutation of error_with_cleanup in Instances.post: for
every tracked network, under the ipmanager lock, load the IPManager,
release each tracked address and persist. The error response it builds
is returned separately by the caller (or, at the buggy call sites,
discarded). -/
def error_with_cleanup_state (db : DBState) (allocs : Allocations) : DBState :=
  allocs.foldl
    (fun d kv =>
      kv.2.foldl
        (fun d2 addr_order =>
          ipmSet d2 kv.1 (ipm_release (ipmLookup d2 kv.1) addr_order.1))
        d)
    db

/-- The environment of one Instances.post call: configuration, the
scheduler results, the existing networks, the free address chooser, the
remote response for a cross node dispatch, whether instance.create
raises, and the uuid4 stream for interface records. -/
structure PostEnv where
  nodeName : String
  apiPort : Nat
  schedulerPlace : List String
  validatePlace : Except String (List String)
  netExists : String → Bool
  chooseFree : List String → String
  proxyResp : Response
  createRaises : Bool
  ifaceUuids : List String

/-- Loop state of the network interface provisioning loop. -/
structure ProvSt where
  db : DBState
  nets : List (Option String × Option String)
  allocations : Allocations
  order : Nat
  uuidPool : List String

/-- The body of the lock block and the statements after it, for a
netdesc whose network uuid u names an existing network. Mirrors the
source: setdefault the rollback entry, load the IPManager, choose or
reserve the address (on a reserve conflict error_with_cleanup is called
and its response DISCARDED because the source lacks a return), persist
the IPManager object loaded before the cleanup, track the allocation,
default the model to virtio, and create the interface record. -/
def provision_lock_block (env : PostEnv) (instance_uuid : String)
    (st : ProvSt) (nd : NetDesc) (u : String) (nets : List (Option String × Option String)) :
    ProvSt :=
  let allocs := allocSetdefault st.allocations u
  let ipm := ipmLookup st.db u
  let step :=
    if pyFalsy nd.address then
      let a := env.chooseFree ipm
      ({ nd with address := some a }, a :: ipm, st.db)
    else
      let a := nd.address.getD ""
      let r := ipm_reserve ipm a
      if r.1 then (nd, r.2, st.db)
      else (nd, r.2, error_with_cleanup_state st.db allocs)
  let nd2 := step.1
  let db2 := ipmSet step.2.2 u step.2.1
  let allocs2 := allocAppend allocs u (nd2.address.getD "", st.order)
  let nd3 := if pyFalsy nd2.model then { nd2 with model := some "virtio" } else nd2
  let iuuid := st.uuidPool.headD "uuid-exhausted"
  let iface : IfaceRec :=
    { uuid := iuuid, netdesc := nd3, instance_uuid := instance_uuid,
      order := st.order, state := "initial" }
  { db := { db2 with interfaces := db2.interfaces ++ [iface] },
    nets := nets, allocations := allocs2, order := st.order + 1,
    uuidPool := st.uuidPool.tail }

/-- One iteration of the provisioning loop of Instances.post. An error
result is an uncaught Python exception carrying the etcd state at the
raise point; generic_wrapper turns it into a 500. Both
error_with_cleanup call sites discard the response and fall through, as
in the source; the only abort is the AttributeError from n.create()
when net.from_db returned None. -/
def provision_step (env : PostEnv) (instance_uuid : String)
    (st : ProvSt) (nd : NetDesc) : Except DBState ProvSt :=
  let db0 :=
    if pyFalsy nd.network_uuid then error_with_cleanup_state st.db st.allocations
    else st.db
  let st := { st with db := db0 }
  if (st.nets.find? (fun kv => kv.1 == nd.network_uuid)).isSome = false then
    let n : Option String :=
      match nd.network_uuid with
      | none => none
      | some u => if env.netExists u then some u else none
    let db1 :=
      if n.isNone then error_with_cleanup_state st.db st.allocations else st.db
    let nets := st.nets ++ [(nd.network_uuid, n)]
    match n with
    | none => .error db1
    | some u => .ok (provision_lock_block env instance_uuid { st with db := db1 } nd u nets)
  else
    match nd.network_uuid with
    | some u => .ok (provision_lock_block env instance_uuid st nd u st.nets)
    | none => .error st.db

/-- The full provisioning loop. -/
def provision_loop (env : PostEnv) (instance_uuid : String) :
    ProvSt → List NetDesc → Except DBState ProvSt
  | st, [] => .ok st
  | st, nd :: rest =>
    match provision_step env instance_uuid st nd with
    | .error db => .error db
    | .ok st2 => provision_loop env instance_uuid st2 rest

/-- Marking every interface of the instance created, the loop at the
end of Instances.post. -/
def markCreated (db : DBState) (instance_uuid : String) : DBState :=
  { db with interfaces := (db.interfaces.map
      (fun i => if i.instance_uuid == instance_uuid then { i with state := "created" } else i)) }

/-- The name sanitizer of Instances.post: retain word characters and
hyphens. -/
def sanitize_name (name : String) : String :=
  String.mk (name.toList.filter
    (fun c => c.isAlpha || c.isDigit || c = '_' || c = '-'))

/-- The local provisioning tail of Instances.post, entered once the
instance is placed on this node. -/
def instances_post_local (env : PostEnv) (db : DBState)
    (instance_uuid : String) (network : List NetDesc) : Response × DBState :=
  match provision_loop env instance_uuid
      { db := db, nets := [], allocations := [], order := 0,
        uuidPool := env.ifaceUuids } network with
  | .error dbAtRaise => (error 500 "server error", dbAtRaise)
  | .ok st =>
    if env.createRaises then (error 500 "server error", st.db)
    else
      let db2 := markCreated st.db instance_uuid
      ({ status := 200, body := "instance" }, db2)

/-- Instances.post from app.py: sanitize the name, allocate the
instance uuid when the caller omitted one, consult the scheduler (or
validate a caller supplied placement), dispatch to the placed node when
it is not this node, and otherwise run the local provisioning loop.
Events are logging only and not modelled; the success payload is the
persisted instance, abstracted to a 200 response. -/
def instances_post (env : PostEnv) (db : DBState) (name : String)
    (network : List NetDesc) (placed_on instance_uuid : Option String)
    (genUuid : String) : Response × DBState :=
  let _sanitized := sanitize_name name
  let iu := if pyFalsy instance_uuid then genUuid else instance_uuid.getD ""
  if pyFalsy placed_on then
    match env.schedulerPlace with
    | [] => (error 507 "Insufficient capacity", { db with instanceState := some "error" })
    | c :: _ =>
      let db2 := { db with placedNode := some c }
      if (c == env.nodeName) = false then (env.proxyResp, db2)
      else instances_post_local env db2 iu network
  else
    match env.validatePlace with
    | .error e => (error 404 ("Node not found: " ++ e), db)
    | .ok [] => (error 507 "Insufficient capacity", { db with instanceState := some "error" })
    | .ok (_ :: _) =>
      let p := placed_on.getD ""
      if (p == env.nodeName) = false then (env.proxyResp, db)
      else instances_post_local env db iu network

end API

/-- Extraction of a successful Except result, for stating evaluation
facts about fallible operations. -/
def exceptOk? : Except ε α → Option α
  | .ok a => some a
  | .error _ => none

/-! Claim theorems. -/

/-- C1 environment: a single node cluster where the scheduler places
the instance on this node, the network netA exists, and the address
10.0.0.5 is already reserved in the IPManager of netA. -/
def c1_env : SF.API.PostEnv :=
  { nodeName := "node1", apiPort := 13000, schedulerPlace := ["node1"],
    validatePlace := .ok [], netExists := fun u => u == "netA",
    chooseFree := fun _ => "10.0.0.99", proxyResp := { status := 200, body := "remote" },
    createRaises := false, ifaceUuids := ["if-1"] }

/-- C1 initial etcd state: 10.0.0.5 is in use on netA. -/
def c1_db : SF.API.DBState :=
  { ipmanagers := [("netA", ["10.0.0.5"])], interfaces := [],
    instanceState := none, placedNode := none }

/-- C1 request: POST /instances handled locally, asking for 10.0.0.5 on
netA. -/
def c1_request_result : SF.API.Response × SF.API.DBState :=
  SF.API.instances_post c1_env c1_db "demo"
    [{ network_uuid := some "netA", address := some "10.0.0.5" }]
    none (some "inst-1") "gen-1"

/-- C1: requesting an address that is already reserved does NOT return
HTTP 409 and is NOT side effect free: because Instances.post calls
error_with_cleanup(409, ...) without returning its response, the
handler falls through, creates a NetworkInterface record for the
conflicted address, marks it created and returns the instance with
status 200. This refutes the claimed 409-with-zero-side-effects
behavior at a concrete input. -/
theorem c1_ip_conflict_side_effects :
    c1_request_result.1 = { status := 200, body := "instance" } ∧
    c1_request_result.1.status ≠ 409 ∧
    c1_request_result.2.interfaces =
      [{ uuid := "if-1",
         netdesc := { network_uuid := some "netA", address := some "10.0.0.5",
                      model := some "virtio" },
         instance_uuid := "inst-1", order := 0, state := "created" }] := by
  decide

/-- C2: the monitor loop of the supervisor never re-forks a dead child.
The DAEMONS table is keyed by role name strings, while the loop looks
it up with the integer pid returned by waitpid, so the lookup always
yields the default unknown and the re-fork branch is never taken; here
the queues child (pid 105) exits and the tick leaves the table
unchanged and forks nothing. -/
theorem c2_monitor_never_reforks :
    SF.Daemons.monitor_tick (SF.Daemons.main_daemons 101 102 103 104 105 106) 105 999 =
      (SF.Daemons.main_daemons 101 102 103 104 105 106, none) := by
  decide

/-- C3: a restore failure does not enqueue a delete and does not let
restore continue: the except branch evaluates the undefined bare name
node, so the first failing instance raises NameError out of
restore_instances, and the remaining instances are never processed. -/
theorem c3_restore_failure_raises_nameerror :
    SF.Daemons.restore_instances (fun u => u == "inst-a")
      [{ uuid := "inst-a", found := true, power_state := "on" },
       { uuid := "inst-b", found := true, power_state := "on" }] =
      .error "NameError: name node is not defined" := by
  rfl

/-- C4: during a dirty fetch no held lock is ever refreshed: get_image
passes the value of the Python expression locks.append(image_lock),
which is None, as the locks argument of fetch, so every bump_locks call
refreshes nothing. Here a caller holds a lock and the transfer spans 50
seconds of chunks, yet the refresh log is empty. -/
theorem c4_no_lock_refresh_during_fetch :
    (SF.exceptOk? (SF.Images.get_image (fun s => s) (fun s => s) (fun s => s)
        "node1" "/srv/sf" (fun _ => none) (fun _ => false)
        (fun _ => { status := 200, lastModified := some "Mon, 01 Jan 2024 00:00:00 GMT",
                    chunks := [{ size := 8192, time := 100 }, { size := 8192, time := 105 },
                               { size := 8192, time := 111 }, { size := 8192, time := 130 },
                               { size := 8192, time := 150 }] })
        "http://example.com/disk.img" [some "caller-held-lock"])).map
      (fun o => (o.fetchLocksArg, o.refreshed)) = some (none, []) := by
  decide

/-- C5: the image lock name (and the payload cache path) used by
get_image derive from the hash of the UNRESOLVED url, while the .info
metadata read by requires_fetch derives from the hash of the resolved
url; for any resolver matched name whose resolution differs from the
name, the two keys differ. -/
theorem c5_cache_keyed_by_unresolved_url
    (h cirros ubuntu : String → String) (nodeName storagePath : String)
    (fsInfo : String → Option SF.Images.ImageInfo) (fsExists : String → Bool)
    (httpGet : String → SF.Images.HttpResp) (url : String) (locks : List (Option String))
    (hinj : Function.Injective h)
    (hc : SF.pyStartsWith url "cirros" = true)
    (hne : cirros url ≠ url)
    (hstatus : (httpGet (SF.Images.resolve cirros ubuntu url)).status = 200) :
    (SF.exceptOk? (SF.Images.get_image h cirros ubuntu nodeName storagePath
        fsInfo fsExists httpGet url locks)).map
        (fun o => (o.lockName, o.infoReadHash)) =
      some (SF.Images._get_image_lock_name nodeName (h url),
            h (SF.Images.resolve cirros ubuntu url)) ∧
    h url ≠ h (SF.Images.resolve cirros ubuntu url) := by
  constructor
  · simp only [SF.Images.get_image, SF.Images.requires_fetch]
    rw [if_neg (by simp [hstatus])]
    split
    case h_1 e heq => exact absurd heq (by simp)
    case h_2 a b c heq =>
      split <;> simp [SF.exceptOk?, SF.Images.hash_image]
  · intro he
    have h2 := hinj he
    rw [SF.Images.resolve, if_pos hc] at h2
    exact hne h2.symm

/-- C5 witness: a concrete instantiation with the identity as the hash
stand-in and a cirros resolver that maps the name cirros to a download
url. -/
theorem c5_cache_keyed_by_unresolved_url_witness :
    (SF.exceptOk? (SF.Images.get_image (fun s => s)
        (fun _ => "http://cirros.net/disk.img") (fun s => s) "node1" "/srv"
        (fun _ => none) (fun _ => false)
        (fun _ => { status := 200, lastModified := some "lm" })
        "cirros" [])).map (fun o => (o.lockName, o.infoReadHash)) =
      some (SF.Images._get_image_lock_name "node1" "cirros",
            "http://cirros.net/disk.img") ∧
    ("cirros" : String) ≠ "http://cirros.net/disk.img" :=
  c5_cache_keyed_by_unresolved_url (fun s => s)
    (fun _ => "http://cirros.net/disk.img") (fun s => s) "node1" "/srv"
    (fun _ => none) (fun _ => false)
    (fun _ => { status := 200, lastModified := some "lm" })
    "cirros" [] (fun _ _ hab => hab) (by decide) (by decide) rfl

/-- C6: when the caller did not supply a placement and the scheduler
returns no candidates, Instances.post marks the instance errored and
returns 507 Insufficient capacity, before the interface provisioning
loop, so the interface records are untouched. -/
theorem c6_insufficient_capacity (env : SF.API.PostEnv) (db : SF.API.DBState)
    (name : String) (network : List SF.API.NetDesc) (instance_uuid : Option String)
    (genUuid : String) (h : env.schedulerPlace = []) :
    SF.API.instances_post env db name network none instance_uuid genUuid =
      (SF.API.error 507 "Insufficient capacity",
       { db with instanceState := some "error" }) ∧
    ({ db with instanceState := some "error" } : SF.API.DBState).interfaces =
      db.interfaces := by
  refine ⟨?_, rfl⟩
  unfold SF.API.instances_post
  simp [SF.pyFalsy, h]

/-- C6 witness: a two node cluster out of capacity. -/
theorem c6_insufficient_capacity_witness :
    SF.API.instances_post
      { nodeName := "node1", apiPort := 13000, schedulerPlace := [],
        validatePlace := .ok [], netExists := fun _ => false,
        chooseFree := fun _ => "", proxyResp := { status := 200, body := "remote" },
        createRaises := false, ifaceUuids := [] }
      { ipmanagers := [], interfaces := [], instanceState := none, placedNode := none }
      "demo" [] none (some "inst-1") "gen-1" =
      (SF.API.error 507 "Insufficient capacity",
       { ipmanagers := [], interfaces := [], instanceState := some "error",
         placedNode := none }) ∧
    ({ ipmanagers := [], interfaces := [], instanceState := some "error",
       placedNode := none } : SF.API.DBState).interfaces = [] :=
  c6_insufficient_capacity _ _ "demo" [] (some "inst-1") "gen-1" rfl

/-- C7 (amended): for a request whose instance lives on another node,
redirect_instance_request proxies the method, the path appended to
http://node:port, the JSON reserialization of the parsed request body
and the Authorization header, and forwards the remote status code and
body text; the forwarded content type however is always
application/json, whatever the remote response carried. -/
theorem c7_proxy_forwarding (nodeName : String) (apiPort : Nat) (instNode : String)
    (req : SF.API.HttpReq) (remote : SF.API.ProxiedRequest → SF.API.RemoteResp)
    (hne : instNode ≠ nodeName) :
    SF.API.redirect_instance_request nodeName apiPort instNode req remote =
      (let preq : SF.API.ProxiedRequest :=
        { method := req.method,
          url := "http://" ++ instNode ++ ":" ++ toString apiPort ++ req.pathInfo,
          data := SF.API.dumps (SF.API.flask_get_post_body req.parsedBody),
          authHeader := req.authorization }
      some (preq, { status := (remote preq).status, body := (remote preq).text },
            "application/json")) := by
  simp [SF.API.redirect_instance_request, hne]

/-- C7 witness: a concrete proxied DELETE. -/
theorem c7_proxy_forwarding_witness :
    SF.API.redirect_instance_request "node-a" 13000 "node-b"
      { method := "DELETE", pathInfo := "/instances/u1", rawBody := "",
        parsedBody := none, authorization := some "Bearer tok" }
      (fun _ => { status := 200, text := "null", contentType := "application/json" }) =
      (let preq : SF.API.ProxiedRequest :=
        { method := "DELETE", url := "http://node-b:13000/instances/u1",
          data := SF.API.dumps (SF.API.flask_get_post_body none),
          authHeader := some "Bearer tok" }
      some (preq, { status := 200, body := "null" }, "application/json")) :=
  c7_proxy_forwarding "node-a" 13000 "node-b"
    { method := "DELETE", pathInfo := "/instances/u1", rawBody := "",
      parsedBody := none, authorization := some "Bearer tok" }
    (fun _ => { status := 200, text := "null", contentType := "application/json" })
    (by decide)

/-- C7 counterexample: the claim as stated is false. At this concrete
input the remote response carries content type text/plain but the
forwarded response says application/json, and the proxied request body
is the reserialized empty JSON object rather than the original empty
body. -/
theorem c7_content_type_counterexample :
    (SF.API.redirect_instance_request "node-a" 13000 "node-b"
        { method := "DELETE", pathInfo := "/instances/u1", rawBody := "",
          parsedBody := none, authorization := some "Bearer tok" }
        (fun _ => { status := 200, text := "null", contentType := "text/plain" })).map
      (fun pr => (pr.1.data, pr.2.2)) = some ("\x7b\x7d", "application/json") ∧
    ("application/json" : String) ≠ "text/plain" ∧
    ("\x7b\x7d" : String) ≠ "" := by
  decide

/-- C8 (amended): requires_fetch marks the copy dirty exactly when the
stored .info record differs from the response on Last-Modified or
Content-Length (absent values compared as absent); when no .info file
exists, the copy is dirty exactly when the response carries at least
one of the two headers. -/
theorem c8_dirty_detection (h : String → String) (sp : String)
    (fsInfo : String → Option SF.Images.ImageInfo)
    (httpGet : String → SF.Images.HttpResp) (u : String)
    (info : SF.Images.ImageInfo) (dirty : Bool) (resp : SF.Images.HttpResp)
    (hr : SF.Images.requires_fetch h sp fsInfo httpGet u = .ok (info, dirty, resp)) :
    (dirty = true ↔ (SF.Images.infoGet info "Last-Modified" ≠ resp.lastModified ∨
                     SF.Images.infoGet info "Content-Length" ≠ resp.contentLength)) ∧
    (fsInfo ((SF.Images.hash_image h sp u).2 ++ ".info") = none →
      (dirty = true ↔ (resp.lastModified ≠ none ∨ resp.contentLength ≠ none))) := by
  have hfold : ∀ (i : SF.Images.ImageInfo) (r : SF.Images.HttpResp),
      (SF.Images.VALIDATED_IMAGE_FIELDS.foldl
        (fun d field =>
          if SF.Images.infoGet i field ≠ SF.Images.respHeader r field then true else d)
        false = true)
      ↔ (SF.Images.infoGet i "Last-Modified" ≠ r.lastModified ∨
         SF.Images.infoGet i "Content-Length" ≠ r.contentLength) := by
    intro i r
    by_cases hl : SF.Images.infoGet i "Last-Modified" = r.lastModified <;>
      by_cases hc2 : SF.Images.infoGet i "Content-Length" = r.contentLength <;>
      simp [SF.Images.VALIDATED_IMAGE_FIELDS, SF.Images.respHeader, hl, hc2]
  simp only [SF.Images.requires_fetch] at hr
  by_cases hs : (httpGet u).status = 200
  · rw [if_neg (by simp [hs])] at hr
    injection hr with hr
    injection hr with h1 hr
    injection hr with h2 h3
    subst h1; subst h2; subst h3
    constructor
    · exact hfold _ _
    · intro hnone
      rw [hfold]
      simp only [SF.Images._read_info, SF.Images.hash_image] at hnone ⊢
      rw [hnone]
      by_cases hl : (httpGet u).lastModified = none <;>
        by_cases hc2 : (httpGet u).contentLength = none <;>
        simp [SF.Images.infoGet, hl, hc2, eq_comm]
  · rw [if_pos (by simp [hs])] at hr
    exact absurd hr (by simp)

/-- The stored info record of the C8 witness scenario. -/
def c8_stored_info : SF.Images.ImageInfo :=
  { url := "u", hash := "u", version := 3,
    lastModified := some "A", contentLength := some "5" }

/-- C8 witness: a stored .info whose Content-Length differs from the
response header makes the copy dirty. -/
theorem c8_dirty_detection_witness :
    ((true : Bool) = true ↔
      (SF.Images.infoGet c8_stored_info "Last-Modified" ≠ some "A" ∨
       SF.Images.infoGet c8_stored_info "Content-Length" ≠ some "7")) ∧
    ((fun _ => some c8_stored_info)
        ((SF.Images.hash_image (fun s => s) "/srv" "u").2 ++ ".info") = none →
      ((true : Bool) = true ↔
        ((some "A" : Option String) ≠ none ∨ (some "7" : Option String) ≠ none))) :=
  c8_dirty_detection (fun s => s) "/srv" (fun _ => some c8_stored_info)
    (fun _ => { status := 200, lastModified := some "A", contentLength := some "7" })
    "u" _ _ _ rfl

/-- C8 counterexample: the claim as stated is false in the no .info
corner: with no stored .info and a 200 response carrying neither
Last-Modified nor Content-Length, requires_fetch reports the copy
clean, not dirty. -/
theorem c8_no_info_counterexample :
    (SF.exceptOk? (SF.Images.requires_fetch (fun s => s) "/srv" (fun _ => none)
        (fun _ => { status := 200 }) "http://example.com/i.img")).map
      (fun t => t.2.1) = some false := by
  decide

/-- C9: resize is idempotent. A successful call leaves the target
backing file in place, and a second call with the same arguments
returns the same path and the identical filesystem, doing no further
work. -/
theorem c9_resize_idempotent (vsize : Nat → Option Nat) (rtool : Nat → Nat → Nat)
    (fs fs1 : List (String × Nat)) (p : String) (s : Nat) (out : String)
    (h : SF.Images.resize vsize rtool fs p s = .ok (fs1, out)) :
    SF.Images.resize vsize rtool fs1 p s = .ok (fs1, out) := by
  have hins : ∀ (fsx : List (String × Nat)) (v : Nat),
      SF.Images.fsGet (SF.Images.fsInsert fsx (SF.Images.backing_file_path p s) v)
        (SF.Images.backing_file_path p s) = some v := by
    intro fsx v
    simp [SF.Images.fsGet, SF.Images.fsInsert]
  have hshort : ∀ (fsx : List (String × Nat)),
      (SF.Images.fsGet fsx (SF.Images.backing_file_path p s)).isSome →
      SF.Images.resize vsize rtool fsx p s =
        .ok (fsx, SF.Images.backing_file_path p s) := by
    intro fsx hx
    simp only [SF.Images.resize]
    rw [if_pos hx]
  simp only [SF.Images.resize] at h
  by_cases h0 : (SF.Images.fsGet fs (SF.Images.backing_file_path p s)).isSome
  · rw [if_pos h0] at h
    injection h with h
    injection h with ha hb
    subst ha; subst hb
    exact hshort fs h0
  · rw [if_neg h0] at h
    cases hgp : SF.Images.fsGet fs p with
    | some f =>
      simp only [hgp] at h
      by_cases hv : vsize f = some (s * 1024 * 1024 * 1024)
      · rw [if_pos hv] at h
        injection h with h
        injection h with ha hb
        subst ha; subst hb
        exact hshort _ (by rw [hins]; rfl)
      · rw [if_neg hv] at h
        cases hgq : SF.Images.fsGet fs (p ++ ".qcow2") with
        | some src =>
          simp only [hgq] at h
          injection h with h
          injection h with ha hb
          subst ha; subst hb
          exact hshort _ (by rw [hins]; rfl)
        | none =>
          simp only [hgq] at h
          exact absurd h (by simp)
    | none =>
      simp only [hgp] at h
      rw [if_neg (by simp)] at h
      cases hgq : SF.Images.fsGet fs (p ++ ".qcow2") with
      | some src =>
        simp only [hgq] at h
        injection h with h
        injection h with ha hb
        subst ha; subst hb
        exact hshort _ (by rw [hins]; rfl)
      | none =>
        simp only [hgq] at h
        exact absurd h (by simp)

/-- C9 witness: a concrete resize through the copy-and-resize branch,
then repeated. -/
theorem c9_resize_idempotent_witness :
    SF.Images.resize (fun _ => some 1) (fun f s => f + s)
      [("img", 5), ("img.qcow2", 7)] "img" 2 =
      .ok ([("img.qcow2.2G", 9), ("img.qcow2.2G", 7), ("img", 5), ("img.qcow2", 7)],
           "img.qcow2.2G") ∧
    SF.Images.resize (fun _ => some 1) (fun f s => f + s)
      [("img.qcow2.2G", 9), ("img.qcow2.2G", 7), ("img", 5), ("img.qcow2", 7)] "img" 2 =
      .ok ([("img.qcow2.2G", 9), ("img.qcow2.2G", 7), ("img", 5), ("img.qcow2", 7)],
           "img.qcow2.2G") :=
  ⟨by rfl,
   c9_resize_idempotent (fun _ => some 1) (fun f s => f + s)
     [("img", 5), ("img.qcow2", 7)]
     [("img.qcow2.2G", 9), ("img.qcow2.2G", 7), ("img", 5), ("img.qcow2", 7)]
     "img" 2 "img.qcow2.2G" (by rfl)⟩

/-- C10 (amended): POST /auth yields a token exactly when namespace and
password are both supplied and non-empty and the password appears in
the stored list; an absent or empty namespace or password gives 400; a
wrong password gives 401; and a namespace without a stored record has
the empty password list, so its lookup never errors. -/
theorem c10_auth (store : SF.API.PasswordStore) (nspace password : Option String) :
    (SF.pyFalsy nspace = true →
      SF.API.auth_post store nspace password = .err 400 "Missing namespace in request") ∧
    (SF.pyFalsy nspace = false → SF.pyFalsy password = true →
      SF.API.auth_post store nspace password = .err 400 "Missing password in request") ∧
    (∀ n p, nspace = some n → password = some p →
      SF.pyFalsy nspace = false → SF.pyFalsy password = false →
      ((SF.API._get_password store n).contains p = false →
        SF.API.auth_post store nspace password = .err 401 "Unauthorized") ∧
      ((SF.API._get_password store n).contains p = true →
        SF.API.auth_post store nspace password = .token n)) ∧
    (∀ n, store n = none → SF.API._get_password store n = []) := by
  refine ⟨?_, ?_, ?_, ?_⟩
  · intro h1
    unfold SF.API.auth_post
    rw [if_pos h1]
  · intro h1 h2
    unfold SF.API.auth_post
    rw [if_neg (by simp [h1]), if_pos h2]
  · intro n p hn hp h1 h2
    subst hn hp
    constructor
    · intro hm
      simp only [SF.API.auth_post, Option.getD_some]
      rw [if_neg (by simp [h1]), if_neg (by simp [h2]), if_pos hm]
    · intro hm
      simp only [SF.API.auth_post, Option.getD_some]
      rw [if_neg (by simp [h1]), if_neg (by simp [h2]), if_neg (by rw [hm]; simp)]
  · intro n hn
    unfold SF.API._get_password
    rw [hn]

/-- C10 witness: a namespace with no stored record rejects any password
with 401 and its password list is empty. -/
theorem c10_auth_witness :
    SF.API.auth_post (fun _ => none) (some "ns1") (some "guess") =
      .err 401 "Unauthorized" ∧
    SF.API._get_password (fun _ => none) "ns1" = [] :=
  ⟨((c10_auth (fun _ => none) (some "ns1") (some "guess")).2.2.1 "ns1" "guess"
      rfl rfl (by decide) (by decide)).1 (by decide),
   (c10_auth (fun _ => none) (some "ns1") (some "guess")).2.2.2 "ns1" rfl⟩

/-- C10 counterexample: the claim as stated is false for an empty
string password. The empty password appears in the stored list for the
namespace, yet Auth.post treats it as missing and returns 400, not a
token. -/
theorem c10_empty_password_counterexample :
    SF.API.auth_post (fun n => if n == "ns1" then some (some [""]) else none)
      (some "ns1") (some "") = .err 400 "Missing password in request" ∧
    (SF.API._get_password (fun n => if n == "ns1" then some (some [""]) else none)
      "ns1").contains "" = true := by
  decide

end SF
